import Mathlib

/-!
Verification development for the light-devops-mcp-server repository.

The definitions below are shallow embeddings of the Python source:
pure functions become Lean functions, request handlers become functions
returning an `Except` result together with an explicit trace of the
side-effecting calls they issue (permission checks, transport calls,
identity-provider calls), and the external collaborators (Descope SDK,
HTTP transport, random generator) are passed in as explicit oracle
parameters.
-/

/- ## Model of Python fnmatch.fnmatchcase

`app/utils/scope_checker.py` matches scopes with `fnmatch.fnmatchcase`.
That function is Python standard library (external to the repository);
it is modelled here from its documented shell-glob semantics:
`*` matches everything, `?` matches any single character,
`[seq]` matches any character in seq (with ranges, and `!` first for
negation, and a leading `]` taken literally), an unterminated `[` is a
literal character, and the whole name must be consumed. -/

/-- Membership of a character in the body of a bracket class; `a-b`
denotes a range, a `-` that cannot form a range is literal. -/
def classMember : List Char → Char → Bool
  | [], _ => false
  | a :: '-' :: b :: rest, c => (decide (a ≤ c) && decide (c ≤ b)) || classMember rest c
  | a :: rest, c => (a == c) || classMember rest c

/-- Scan for the closing bracket of a character class, returning the
class body and the remainder of the pattern. -/
def scanClose : List Char → Option (List Char × List Char)
  | [] => none
  | c :: rest =>
    if c = ']' then some ([], rest)
    else
      match scanClose rest with
      | some (body, r) => some (c :: body, r)
      | none => none

/-- Does the list start with the given character? -/
def headIs (c : Char) : List Char → Bool
  | x :: _ => x == c
  | [] => false

/-- Parse a bracket class given the characters after the opening `[`:
returns (negated, body, rest of the pattern). A `!` in first position
negates; a closing bracket directly after the opening (or after `!`)
is a literal member of the class. -/
def parseClass (l : List Char) : Option (Bool × List Char × List Char) :=
  let neg := headIs '!' l
  let l1 := if neg then l.tail else l
  let lead := headIs ']' l1
  let l2 := if lead then l1.tail else l1
  match scanClose l2 with
  | some (body, r) => some (neg, (if lead then ']' :: body else body), r)
  | none => none

/-- Token of a compiled glob pattern. -/
inductive GlobTok where
  | star : GlobTok
  | anyChar : GlobTok
  | cls (neg : Bool) (body : List Char) : GlobTok
  | lit (c : Char) : GlobTok
deriving DecidableEq

/-- Tokenize a glob pattern, with explicit fuel. Each step consumes at
least one character of the pattern (parseClass_length), so fuel equal
to the pattern length is always sufficient and the fuel-exhausted case
is unreachable. -/
def parsePatternGo : Nat → List Char → List GlobTok
  | _, [] => []
  | 0, _ :: _ => []
  | fuel + 1, pc :: pr =>
    if pc = '*' then GlobTok.star :: parsePatternGo fuel pr
    else if pc = '?' then GlobTok.anyChar :: parsePatternGo fuel pr
    else if pc = '[' then
      match parseClass pr with
      | some (neg, body, rest) => GlobTok.cls neg body :: parsePatternGo fuel rest
      | none => GlobTok.lit '[' :: parsePatternGo fuel pr
    else GlobTok.lit pc :: parsePatternGo fuel pr

/-- Tokenize a glob pattern. -/
def parsePattern (p : List Char) : List GlobTok :=
  parsePatternGo p.length p

/-- Does one token match one character (star excluded)? -/
def tokCharMatch : GlobTok → Char → Bool
  | GlobTok.star, _ => false
  | GlobTok.anyChar, _ => true
  | GlobTok.cls neg body, c => neg != classMember body c
  | GlobTok.lit pc, c => pc == c

/-- Match a character list against a token list. A star consumes an
arbitrary prefix, i.e. the remaining tokens must match some suffix. -/
def tokMatch : List GlobTok → List Char → Bool
  | [], s => s.isEmpty
  | GlobTok.star :: t, s => s.tails.any (fun suf => tokMatch t suf)
  | tok :: t, s =>
    match s with
    | [] => false
    | c :: sr => tokCharMatch tok c && tokMatch t sr

/-- Model of Python fnmatch.fnmatchcase(name, pat): test whether name
matches the glob pattern pat, case sensitively. -/
def fnmatchcase (name pat : String) : Bool :=
  tokMatch (parsePattern pat.data) name.data

/-- A character that is not a glob metacharacter. -/
def literalChar (c : Char) : Bool := !(c == '*') && !(c == '?') && !(c == '[')

/-- A string free of glob metacharacters: fnmatchcase degenerates to
string equality on such strings. -/
def literalStr (s : String) : Bool := s.data.all literalChar

/- ## Data model: app/schemas/auth.py -/

/-- Embedding of the UserPrincipal pydantic model (app/schemas/auth.py).
String-keyed claim maps are association lists. -/
structure UserPrincipal where
  user_id : String
  login_id : Option String := none
  email : Option String := none
  name : Option String := none
  tenant : Option String := none
  roles : List String := []
  scopes : List String := []
  permissions : List String := []
  token : Option String := none
  refresh_token : Option String := none
  claims : List (String × String) := []
deriving DecidableEq, Repr

/- ## app/utils/scope_checker.py -/

/-- ROLE_SCOPE_MAP of scope_checker.py; a missing key yields [] as in
ROLE_SCOPE_MAP.get(r, []). -/
def ROLE_SCOPE_MAP : String → List String
  | "observer" => ["logs.read", "metrics.read"]
  | "deployer" => ["deploy.staging", "deploy.read"]
  | "prod-deployer" => ["deploy.production", "deploy.read"]
  | "rollbacker" => ["rollback.write", "deploy.read"]
  | "admin" => ["*"]
  | _ => []

/-- scope_checker.expand_scopes_from_roles. -/
def expand_scopes_from_roles (roles : List String) : List String :=
  roles.flatMap ROLE_SCOPE_MAP

/-- scope_checker._match_any: some user scope glob-matches some
required scope, in either direction. -/
def _match_any (user_scopes required : List String) : Bool :=
  user_scopes.any fun us =>
    required.any fun req => fnmatchcase us req || fnmatchcase req us

/-- scope_checker._match_all: every required scope is glob-matched by
some user scope, in either direction. -/
def _match_all (user_scopes required : List String) : Bool :=
  required.all fun req =>
    user_scopes.any fun us => fnmatchcase us req || fnmatchcase req us

/-- The merged effective scope set of has_scopes: explicit scopes plus
role-derived scopes. The Python code builds a set; only membership
matters for the admin/any/all folds, so the concatenated list stands in
for the set. -/
def effective_scopes (principal : UserPrincipal) : List String :=
  principal.scopes ++ expand_scopes_from_roles principal.roles

/-- scope_checker.has_scopes. -/
def has_scopes (principal : UserPrincipal) (required : List String)
    (mode : String) : Bool :=
  let eff := effective_scopes principal
  if eff.any (fun s => s == "*" || s == "admin:*") then true
  else if mode == "any" then _match_any eff required
  else _match_all eff required

/-- Concrete principal whose only scope is a glob pattern. -/
def globPrincipal : UserPrincipal :=
  { user_id := "u1", scopes := ["deploy.*"] }

/-- Concrete literal-scoped principal for the C1 witness. -/
def obsPrincipal : UserPrincipal :=
  { user_id := "u2", scopes := ["logs.read"] }

/- ## Router-level permission check (gateway_router.py, routes/tools.py) -/

/-- An HTTPException raised by a handler, reduced to its status code
and detail string. -/
structure HttpError where
  status_code : Nat
  detail : String
deriving DecidableEq, Repr

/-- GatewayRouter.check_permission (also duplicated as the module-level
check_permission of routes/tools.py): a plain membership test on
user.permissions; raises HTTP 403 when the permission is absent. -/
def check_permission (user : UserPrincipal) (permission : String)
    (resource : Option String) : Except HttpError Unit :=
  if !(user.permissions.contains permission) then
    Except.error
      ⟨403, "Insufficient permissions to " ++ resource.getD permission⟩
  else
    Except.ok ()

/-- Is the result an HTTP error with the given status? -/
def isHttpErrorWith (status : Nat) : Except HttpError α → Bool
  | Except.error e => e.status_code == status
  | Except.ok _ => false

/-- Concrete principal carrying only the admin wildcard. -/
def adminStar : UserPrincipal :=
  { user_id := "admin1", scopes := ["*"], permissions := ["*"] }

/- ## app/config.py : RBAC configuration -/

/-- Settings.AVAILABLE_ROLES. -/
def AVAILABLE_ROLES : List String :=
  ["New_user", "Observer", "developer", "Developer_prod_access"]

/-- Settings.AVAILABLE_PERMISSIONS. -/
def AVAILABLE_PERMISSIONS : List String :=
  ["read_metrics", "read_logs", "read_deployments", "read_rollbacks",
   "deploy_staging", "deploy_production", "rollback_staging", "rollback_production"]

/-- Settings.ROLE_PERMISSIONS; a missing key yields [] as in
ROLE_PERMISSIONS.get(role, []). -/
def ROLE_PERMISSIONS (role : String) : List String :=
  if role = "Observer" then ["read_metrics", "read_logs"]
  else if role = "developer" then
    ["read_metrics", "read_logs", "read_deployments", "deploy_staging",
     "rollback_staging"]
  else if role = "Developer_prod_access" then
    ["read_metrics", "read_logs", "read_deployments", "read_rollbacks",
     "deploy_staging", "deploy_production", "rollback_staging",
     "rollback_production"]
  else []

/- ## app/infrastructure/auth/descope_client.py -/

/-- The top-level claims of a validated JWT response, restricted to the
keys read by extract_user_principal, plus its stringified item view. -/
structure JwtClaims where
  sub : Option String := none
  userId : Option String := none
  loginId : Option String := none
  login_id : Option String := none
  email : Option String := none
  name : Option String := none
  user_name : Option String := none
  tenant : Option String := none
  tenantId : Option String := none
  roles : List String := []
  permissions : List String := []
  raw : List (String × String) := []
deriving DecidableEq, Repr

/-- Model of the Descope SDK get_matched_permissions and
get_matched_roles (external library, documented in descope_client.py):
the claim values of the given kind that are both in the JWT top-level
claims and in the specified list to match. -/
def get_matched (claimValues toMatch : List String) : List String :=
  claimValues.filter fun c => toMatch.contains c

/-- Python `a or b` on optional strings: an absent or empty left
operand falls through to the right operand. -/
def pyOr (a b : Option String) : Option String :=
  match a with
  | some s => if s = "" then b else some s
  | none => b

/-- Python `x if x else d`: an absent or empty value becomes d. -/
def pyGetD (a : Option String) (d : String) : String :=
  match a with
  | some s => if s = "" then d else s
  | none => d

/-- The roles and permissions computed by
DescopeAuthClient.extract_user_principal: match the JWT roles and
permissions against the configured tables; when no permission matched
but some role did, build the role-derived permission list from
ROLE_PERMISSIONS, deduplicate it, and re-match it against the same JWT
claims. -/
def extract_roles_permissions (jwt : JwtClaims) : List String × List String :=
  if (get_matched jwt.permissions AVAILABLE_PERMISSIONS).isEmpty
      && !(get_matched jwt.roles AVAILABLE_ROLES).isEmpty then
    if !((get_matched jwt.roles AVAILABLE_ROLES).flatMap ROLE_PERMISSIONS).isEmpty then
      (get_matched jwt.roles AVAILABLE_ROLES,
        get_matched jwt.permissions
          ((get_matched jwt.roles AVAILABLE_ROLES).flatMap ROLE_PERMISSIONS).dedup)
    else
      (get_matched jwt.roles AVAILABLE_ROLES,
        get_matched jwt.permissions AVAILABLE_PERMISSIONS)
  else
    (get_matched jwt.roles AVAILABLE_ROLES,
      get_matched jwt.permissions AVAILABLE_PERMISSIONS)

/-- DescopeAuthClient.extract_user_principal: the resolved principal
for a validated JWT response. -/
def extract_user_principal (jwt : JwtClaims) (session_token : String) :
    UserPrincipal :=
  let user_id := pyOr jwt.sub jwt.userId
  let rp := extract_roles_permissions jwt
  { user_id := pyGetD user_id "unknown"
    login_id := some (pyGetD (pyOr (pyOr jwt.loginId jwt.email) jwt.login_id) "unknown")
    email := some ((pyOr jwt.email none).getD "")
    name := some (pyGetD (pyOr jwt.name jwt.user_name) "User")
    tenant := some (pyGetD (pyOr jwt.tenant jwt.tenantId) "default")
    roles := rp.1
    permissions := rp.2
    scopes := []
    token := some session_token
    claims := jwt.raw }

/-- JWT claims carrying the developer role and no permission claims. -/
def developerJwt : JwtClaims := { roles := ["developer"] }

/- ## app/dependencies.py -/

/-- The configuration switches read by the components modelled here
(app/config.py Settings, environment-derived). -/
structure Settings where
  AUTH_ALLOW_ANONYMOUS : Bool := false
  CEQUENCE_ENABLED : Bool := true
  CEQUENCE_GATEWAY_URL : Option String := none
deriving DecidableEq, Repr

/-- The parts of the inbound request read by get_current_user: the
bearer credentials parsed by HTTPBearer, the header map, and the
cookie map. -/
structure Request where
  headers : List (String × String) := []
  cookies : List (String × String) := []
  bearer : Option String := none
deriving DecidableEq, Repr

/-- The Descope SDK as an oracle: whether the client is configured, and
the outcome of validate_session for a session token and optional
refresh token (an error models a raised DescopeAuthError). -/
structure DescopeOracle where
  configured : Bool
  validate : String → Option String → Except HttpError JwtClaims

/-- The synthetic principal returned by get_current_user when
AUTH_ALLOW_ANONYMOUS is set (dependencies.py). -/
def anonymousPrincipal : UserPrincipal :=
  { user_id := "anonymous"
    login_id := some "anonymous"
    email := some ""
    name := some "Anonymous User"
    tenant := some "default"
    roles := ["anonymous"]
    permissions := ["read_logs", "read_metrics"]
    scopes := []
    token := some ""
    claims := [] }

/-- Assoc-list lookup standing in for Python dict access. -/
def lookupHeader (m : List (String × String)) (k : String) : Option String :=
  (m.find? (fun kv => kv.1 == k)).map (fun kv => kv.2)

/-- dependencies.get_current_user, returning the resolved principal (or
HTTP error) together with the number of identity-provider calls
performed. The anonymous branch is checked first, before any token or
header is consulted. -/
def get_current_user (settings : Settings) (descope : DescopeOracle)
    (req : Request) : Except HttpError UserPrincipal × Nat :=
  if settings.AUTH_ALLOW_ANONYMOUS then
    (Except.ok anonymousPrincipal, 0)
  else
    match req.bearer with
    | none =>
      (Except.error ⟨401, "Authentication required - no session token provided"⟩, 0)
    | some session_token =>
      if !descope.configured then
        (Except.error ⟨500, "Authentication service not configured"⟩, 0)
      else
        let refresh_token := lookupHeader req.cookies "DSR"
        match descope.validate session_token refresh_token with
        | Except.ok jwt =>
          (Except.ok (extract_user_principal jwt session_token), 1)
        | Except.error e => (Except.error e, 1)

/-- The dependency produced by require_permissions(required_permissions)
(dependencies.py): users with user_id "anonymous" skip permission
validation entirely; any other user must hold at least one of the
required permissions. -/
def require_permissions (required_permissions : List String)
    (user : UserPrincipal) : Except HttpError UserPrincipal :=
  if user.user_id == "anonymous" then
    Except.ok user
  else if user.permissions.any (fun p => required_permissions.contains p) then
    Except.ok user
  else
    Except.error ⟨403, "Insufficient permissions"⟩

/-- A Descope oracle that would reject every token, for witnesses. -/
def rejectAllOracle : DescopeOracle :=
  { configured := true
    validate := fun _ _ => Except.error ⟨401, "Session validation error"⟩ }

/-- A principal that is anonymous by user_id but carries unrelated
permissions, for the C10 witness. -/
def oddAnonymous : UserPrincipal :=
  { user_id := "anonymous", permissions := ["something_else"] }

/- ## Gateway routers (app/infrastructure/gateway/) -/

/-- Observable side-effecting calls issued by a router operation, in
program order: permission checks and outbound calls (domain-service
calls in direct mode, cequence_client calls in proxied mode). -/
inductive Event where
  | permCheck (permission : String) : Event
  | transport (operation : String) : Event
deriving DecidableEq, Repr

/-- Opaque JSON payload produced by a backend service or the gateway;
the routers pass these through without inspecting them, so an
uninterpreted wrapper suffices. -/
structure Json where
  raw : String
deriving DecidableEq, Repr

/-- The {"tool": ..., "success": ..., "result"/"error": ...} dict
returned by the direct-mode tool handlers. -/
structure ToolResult where
  tool : String
  success : Bool
  result : Option Json := none
  error : Option String := none
deriving DecidableEq, Repr

/-- A dummy log entry produced by DummyDataGenerator.generate_logs.
The generator is peripheral mock-data glue (spec section 1), so the
entry content comes from an oracle; only the shape is fixed here. -/
structure LogEntry where
  level : String
  message : String
  timestamp : String
  source : String
  is_loading : Bool
deriving DecidableEq, Repr

/-- A dummy metric entry produced by DummyDataGenerator.generate_metrics. -/
structure MetricEntry where
  name : String
  value : String
  unit : String
  timestamp : String
deriving DecidableEq, Repr

/-- The logs dict returned by the routers' get_logs. -/
structure LogsResult where
  uri : String
  rtype : String
  count : Nat
  levelFilter : Option String
  limitFilter : Nat
  loading : Bool := false
  message : Option String := none
  data : List LogEntry
deriving DecidableEq, Repr

/-- The metrics dict returned by the routers' get_metrics. -/
structure MetricsResult where
  uri : String
  rtype : String
  count : Nat
  limitFilter : Nat
  loading : Bool := false
  message : Option String := none
  data : List MetricEntry
deriving DecidableEq, Repr

/-- A dict returned to the caller by a router operation. -/
inductive RouterOutput where
  | tool (t : ToolResult) : RouterOutput
  | payload (j : Json) : RouterOutput
  | logs (r : LogsResult) : RouterOutput
  | metrics (r : MetricsResult) : RouterOutput
deriving DecidableEq, Repr

/-- An exception escaping a router call: an HTTPException, or any other
Python exception reduced to its message. -/
inductive PyErr where
  | http (e : HttpError) : PyErr
  | exc (message : String) : PyErr
deriving DecidableEq, Repr

/-- Result and trace of one router operation. -/
abbrev RouterCall := Except PyErr RouterOutput × List Event

def isPermCheck : Event → Bool
  | Event.permCheck _ => true
  | Event.transport _ => false

/-- Number of outbound (transport/service) calls in a trace. -/
def countTransport (tr : List Event) : Nat :=
  (tr.filter fun e => !isPermCheck e).length

/-- True when no permission check occurs after an outbound call: the
trace is a block of checks followed by a block of calls. -/
def checksThenTransports (tr : List Event) : Bool :=
  (tr.dropWhile isPermCheck).all fun e => !isPermCheck e

/-- Is the call outcome an HTTPException with this status code? -/
def isPyHttp (status : Nat) : Except PyErr RouterOutput → Bool
  | Except.error (PyErr.http e) => e.status_code == status
  | _ => false

/- ### Direct mode (direct_router.py + domain services) -/

/-- The backend clients injected into the direct-mode domain services
(CICDClient.deploy_service and RollbackClient.rollback_deployment),
as oracles; an error models a raised exception. -/
structure DirectServices where
  cicdDeploy : String → String → String → Except String Json
  rollbackClient : String → String → String → Except String Json

/-- DeployService.deploy (domain/services/deploy_service.py): validates
the environment against its allow-list before delegating to the CICD
client. -/
def DeployService.deploy (svc : DirectServices)
    (service_name version environment : String) : Except String Json :=
  if !((["dev", "staging", "prod", "production"] : List String).contains environment) then
    Except.error "Invalid environment"
  else
    svc.cicdDeploy service_name version environment

/-- RollbackService.rollback (domain/services/rollback_service.py):
validates the stripped reason length before delegating to the rollback
client. -/
def RollbackService.rollback (svc : DirectServices)
    (deployment_id reason environment : String) : Except String Json :=
  if reason.trim.length < 5 then
    Except.error "Rollback reason must be at least 5 characters"
  else
    svc.rollbackClient deployment_id reason environment

/-- The try-block of DirectRouter.deploy_service: call the deploy
service and wrap its outcome; exceptions are swallowed into a
success=false dict. pre holds the events of the permission phase. -/
def DirectRouter.deployCore (svc : DirectServices)
    (service_name version environment : String) (pre : List Event) : RouterCall :=
  match DeployService.deploy svc service_name version environment with
  | Except.ok j =>
    (Except.ok (RouterOutput.tool
        { tool := "deploy_service", success := true, result := some j }),
      pre ++ [Event.transport "deploy_service.deploy"])
  | Except.error e =>
    (Except.ok (RouterOutput.tool
        { tool := "deploy_service", success := false, error := some e }),
      pre ++ [Event.transport "deploy_service.deploy"])

/-- DirectRouter.deploy_service: environment-specific permission check
for production and staging; any other environment value skips the
permission phase entirely and goes straight to the deploy service. -/
def DirectRouter.deploy_service (svc : DirectServices) (user : UserPrincipal)
    (service_name version environment : String) : RouterCall :=
  if environment == "production" then
    match check_permission user "deploy_production" (some "deploy to production") with
    | Except.error e => (Except.error (PyErr.http e), [Event.permCheck "deploy_production"])
    | Except.ok _ =>
      DirectRouter.deployCore svc service_name version environment
        [Event.permCheck "deploy_production"]
  else if environment == "staging" then
    match check_permission user "deploy_staging" (some "deploy to staging") with
    | Except.error e => (Except.error (PyErr.http e), [Event.permCheck "deploy_staging"])
    | Except.ok _ =>
      DirectRouter.deployCore svc service_name version environment
        [Event.permCheck "deploy_staging"]
  else
    DirectRouter.deployCore svc service_name version environment []

/-- The try-block of DirectRouter.rollback_deployment. -/
def DirectRouter.rollbackCore (svc : DirectServices)
    (deployment_id reason environment : String) (pre : List Event) : RouterCall :=
  match RollbackService.rollback svc deployment_id reason environment with
  | Except.ok j =>
    (Except.ok (RouterOutput.tool
        { tool := "rollback_deployment", success := true, result := some j }),
      pre ++ [Event.transport "rollback_service.rollback"])
  | Except.error e =>
    (Except.ok (RouterOutput.tool
        { tool := "rollback_deployment", success := false, error := some e }),
      pre ++ [Event.transport "rollback_service.rollback"])

/-- DirectRouter.rollback_deployment: environment-specific permission
check; unlike deploy, an unrecognized environment raises HTTP 400
before any service call. -/
def DirectRouter.rollback_deployment (svc : DirectServices) (user : UserPrincipal)
    (deployment_id reason environment : String) : RouterCall :=
  if environment == "production" then
    match check_permission user "rollback_production" (some "perform production rollbacks") with
    | Except.error e => (Except.error (PyErr.http e), [Event.permCheck "rollback_production"])
    | Except.ok _ =>
      DirectRouter.rollbackCore svc deployment_id reason environment
        [Event.permCheck "rollback_production"]
  else if environment == "staging" then
    match check_permission user "rollback_staging" (some "perform staging rollbacks") with
    | Except.error e => (Except.error (PyErr.http e), [Event.permCheck "rollback_staging"])
    | Except.ok _ =>
      DirectRouter.rollbackCore svc deployment_id reason environment
        [Event.permCheck "rollback_staging"]
  else
    (Except.error (PyErr.http
        ⟨400, "Invalid environment. Must be 'staging' or 'production'"⟩), [])

/- ### Proxied mode (cequence_router.py + utils/dummy_data.py) -/

/-- Abstract body of a gateway HTTP response as consumed by
_parse_mcp_response: a JSON-RPC result, a JSON-RPC error with its
message, or an unparseable/unexpected body. Both the SSE and plain
JSON wire formats reduce to one of these three outcomes. -/
inductive McpBody where
  | result (payload : Json) : McpBody
  | rpcError (message : String) : McpBody
  | malformed : McpBody
deriving DecidableEq, Repr

/-- A gateway HTTP response: status code plus parsed body. -/
structure GatewayResponse where
  status_code : Nat
  body : McpBody
deriving DecidableEq, Repr

/-- Outcome of one HTTP call through cequence_client: a raised
exception (network error or failed handshake) or a response. -/
abbrev TransportOutcome := Except String GatewayResponse

/-- CequenceRouter._handle_gateway_error: raise on status >= 400. -/
def _handle_gateway_error (resp : GatewayResponse) : Except String Unit :=
  if 400 ≤ resp.status_code then
    Except.error ("Gateway error: " ++ toString resp.status_code)
  else
    Except.ok ()

/-- CequenceRouter._parse_mcp_response: extract the JSON-RPC result or
raise on an error payload or unparseable body. -/
def _parse_mcp_response (resp : GatewayResponse) : Except String Json :=
  match resp.body with
  | McpBody.result p => Except.ok p
  | McpBody.rpcError m => Except.error ("Gateway returned error: " ++ m)
  | McpBody.malformed => Except.error "Invalid response from gateway"

/-- The try-block shared by the proxied write operations: call the
gateway, check the status, parse the body; any failure is re-raised. -/
def CequenceRouter.callGateway (transport : TransportOutcome)
    (operation : String) (pre : List Event) : RouterCall :=
  match transport with
  | Except.error msg => (Except.error (PyErr.exc msg), pre ++ [Event.transport operation])
  | Except.ok resp =>
    match _handle_gateway_error resp with
    | Except.error msg => (Except.error (PyErr.exc msg), pre ++ [Event.transport operation])
    | Except.ok _ =>
      match _parse_mcp_response resp with
      | Except.ok j => (Except.ok (RouterOutput.payload j), pre ++ [Event.transport operation])
      | Except.error msg => (Except.error (PyErr.exc msg), pre ++ [Event.transport operation])

/-- DummyDataGenerator (utils/dummy_data.py) as an entry oracle: the
generator is peripheral mock-data glue, so the content of the i-th
generated entry is left abstract; generate_logs produces exactly count
entries and generate_metrics one entry per selected metric config. -/
structure DummyDataGenerator where
  mkLogEntry : Nat → Option String → LogEntry
  mkMetricEntry : String × String → Option String → MetricEntry

/-- The (name, unit) pairs of DummyDataGenerator.METRIC_CONFIGS
(15 entries). -/
def METRIC_CONFIGS : List (String × String) :=
  [("cpu_utilization", "percent"), ("memory_usage", "percent"),
   ("disk_usage", "percent"), ("response_time", "milliseconds"),
   ("error_rate", "percent"), ("request_count", "count"),
   ("database_connections", "count"), ("network_in", "bytes"),
   ("network_out", "bytes"), ("queue_size", "count"),
   ("active_sessions", "count"), ("cache_hit_rate", "percent"),
   ("throughput", "requests_per_second"), ("latency_p95", "milliseconds"),
   ("availability", "percent")]

/-- DummyDataGenerator.generate_logs: one entry per loop iteration,
i.e. exactly count entries. -/
def generate_logs (g : DummyDataGenerator) (count : Nat)
    (level : Option String) : List LogEntry :=
  (List.range count).map fun i => g.mkLogEntry i level

/-- DummyDataGenerator.generate_metrics with metric_type absent: one
entry per config in METRIC_CONFIGS[:count]. -/
def generate_metrics (g : DummyDataGenerator) (count : Nat)
    (service : Option String) : List MetricEntry :=
  (METRIC_CONFIGS.take count).map fun cfg => g.mkMetricEntry cfg service

/-- CequenceRouter.get_logs: permission check, then an immediate
placeholder built from min(limit, 15) dummy entries with loading set,
while the real gateway call is spawned as a detached task
(asyncio.create_task) whose outcome bgOutcome is never consulted. -/
def CequenceRouter.get_logs (g : DummyDataGenerator)
    (bgOutcome : TransportOutcome) (user : UserPrincipal)
    (level : Option String) (limit : Nat) : RouterCall :=
  match check_permission user "read_logs" (some "read logs") with
  | Except.error e => (Except.error (PyErr.http e), [Event.permCheck "read_logs"])
  | Except.ok _ =>
    let dummy_logs := generate_logs g (min limit 15) level
    (Except.ok (RouterOutput.logs
        { uri := "logs", rtype := "logs", count := dummy_logs.length,
          levelFilter := level, limitFilter := limit, loading := true,
          message := some "Loading real data in background...",
          data := dummy_logs }),
      [Event.permCheck "read_logs", Event.transport "cequence_client.get_logs"])

/-- CequenceRouter.get_metrics: permission check, then an immediate
placeholder built from min(limit, 10) dummy entries with loading set,
while the real gateway call is spawned detached. -/
def CequenceRouter.get_metrics (g : DummyDataGenerator)
    (bgOutcome : TransportOutcome) (user : UserPrincipal)
    (limit : Nat) (service : Option String) : RouterCall :=
  match check_permission user "read_metrics" (some "read metrics") with
  | Except.error e => (Except.error (PyErr.http e), [Event.permCheck "read_metrics"])
  | Except.ok _ =>
    let dummy_metrics := generate_metrics g (min limit 10) service
    (Except.ok (RouterOutput.metrics
        { uri := "metrics", rtype := "metrics", count := dummy_metrics.length,
          limitFilter := limit, loading := true,
          message := some "Loading real data in background...",
          data := dummy_metrics }),
      [Event.permCheck "read_metrics", Event.transport "cequence_client.get_metrics"])

/-- CequenceRouter.deploy_service: environment-specific permission
check (no check and no validation error for other environment values),
then the synchronous gateway call. -/
def CequenceRouter.deploy_service (transport : TransportOutcome)
    (user : UserPrincipal) (service_name version environment : String) : RouterCall :=
  if environment == "production" then
    match check_permission user "deploy_production" (some "deploy to production") with
    | Except.error e => (Except.error (PyErr.http e), [Event.permCheck "deploy_production"])
    | Except.ok _ =>
      CequenceRouter.callGateway transport "cequence_client.deploy_service"
        [Event.permCheck "deploy_production"]
  else if environment == "staging" then
    match check_permission user "deploy_staging" (some "deploy to staging") with
    | Except.error e => (Except.error (PyErr.http e), [Event.permCheck "deploy_staging"])
    | Except.ok _ =>
      CequenceRouter.callGateway transport "cequence_client.deploy_service"
        [Event.permCheck "deploy_staging"]
  else
    CequenceRouter.callGateway transport "cequence_client.deploy_service" []

/-- CequenceRouter.rollback_deployment: environment-specific permission
check, HTTP 400 for any other environment value, then the synchronous
gateway call. -/
def CequenceRouter.rollback_deployment (transport : TransportOutcome)
    (user : UserPrincipal) (deployment_id reason environment : String) : RouterCall :=
  if environment == "production" then
    match check_permission user "rollback_production" (some "perform production rollbacks") with
    | Except.error e => (Except.error (PyErr.http e), [Event.permCheck "rollback_production"])
    | Except.ok _ =>
      CequenceRouter.callGateway transport "cequence_client.rollback_deployment"
        [Event.permCheck "rollback_production"]
  else if environment == "staging" then
    match check_permission user "rollback_staging" (some "perform staging rollbacks") with
    | Except.error e => (Except.error (PyErr.http e), [Event.permCheck "rollback_staging"])
    | Except.ok _ =>
      CequenceRouter.callGateway transport "cequence_client.rollback_deployment"
        [Event.permCheck "rollback_staging"]
  else
    (Except.error (PyErr.http
        ⟨400, "Invalid environment. Must be 'staging' or 'production'"⟩), [])

/- ### MCP service layer (domain/services/mcp_service.py, router_factory.py) -/

/-- RouterFactory.get_router_type (router_factory.py). -/
def get_router_type (settings : Settings) : String :=
  if settings.CEQUENCE_ENABLED && settings.CEQUENCE_GATEWAY_URL.isSome then
    "cequence"
  else
    "direct"

/-- MCPToolService.rollback_deployment (mcp_service.py): call the
router selected by the factory; on any exception escaping a cequence
router call, build a fresh DirectRouter and invoke it once with
identical arguments, returning its result; in direct mode exceptions
propagate. The second component lists the argument tuples of the
fallback DirectRouter invocations. -/
def MCPToolService.rollback_deployment (settings : Settings)
    (transport : TransportOutcome) (svc : DirectServices) (user : UserPrincipal)
    (deployment_id reason environment : String) :
    Except PyErr RouterOutput × List (String × String × String) :=
  if get_router_type settings == "cequence" then
    match (CequenceRouter.rollback_deployment transport user deployment_id reason environment).1 with
    | Except.ok r => (Except.ok r, [])
    | Except.error _ =>
      ((DirectRouter.rollback_deployment svc user deployment_id reason environment).1,
        [(deployment_id, reason, environment)])
  else
    ((DirectRouter.rollback_deployment svc user deployment_id reason environment).1, [])

/-- Has the synchronous transport call failed or returned a non-success
HTTP status? -/
def transportFailed : TransportOutcome → Bool
  | Except.error _ => true
  | Except.ok resp => 400 ≤ resp.status_code

/-- CICD and rollback backends that always succeed, for concrete runs. -/
def okServices : DirectServices :=
  { cicdDeploy := fun _ _ _ => Except.ok ⟨"deployment-accepted"⟩
    rollbackClient := fun _ _ _ => Except.ok ⟨"rollback-accepted"⟩ }

/-- A principal holding no permissions at all. -/
def noPermUser : UserPrincipal := { user_id := "nobody" }

/-- A transport outcome modelling a network failure. -/
def failTransport : TransportOutcome := Except.error "Connection refused"

/-- Settings that select the cequence router. -/
def cequenceSettings : Settings :=
  { CEQUENCE_ENABLED := true, CEQUENCE_GATEWAY_URL := some "https://gw.example" }

/-- A principal allowed to roll back staging. -/
def stagingRollbacker : UserPrincipal :=
  { user_id := "dev1", permissions := ["rollback_staging"] }

/-- A concrete dummy generator for witnesses. -/
def fixedGenerator : DummyDataGenerator :=
  { mkLogEntry := fun i level =>
      { level := level.getD "INFO", message := "LOADING: entry",
        timestamp := toString i, source := "payment-service", is_loading := true }
    mkMetricEntry := fun cfg service =>
      { name := cfg.1, value := "42", unit := cfg.2,
        timestamp := service.getD "now" } }

/-- A transport outcome carrying a successful gateway response. -/
def okTransport : TransportOutcome :=
  Except.ok ⟨200, McpBody.result ⟨"real-data"⟩⟩

/-- A principal allowed to read logs and metrics. -/
def readerUser : UserPrincipal :=
  { user_id := "obs1", permissions := ["read_logs", "read_metrics"] }

/- ## Proxied transport session handshake (cequence_client.py) -/

/-- Mutable state of the CequenceClient transport: the stored session
id and the handshake flag; one instance per process. A fresh client
starts with session_id=None and initialized=False. -/
structure CequenceState where
  session_id : Option String := none
  initialized : Bool := false
deriving DecidableEq, Repr

/-- Outcome of posting the initialize envelope, as an oracle: a raised
network exception, or a response with a status code and the optional
Mcp-Session-Id header. -/
inductive InitOutcome where
  | exc (message : String) : InitOutcome
  | resp (status_code : Nat) (mcpSessionId : Option String) : InitOutcome
deriving DecidableEq, Repr

/-- Outcome of posting the initialized notification, as an oracle: a
raised network exception, or a response whose status code is only
logged. -/
inductive NotifyOutcome where
  | exc (message : String) : NotifyOutcome
  | resp (status_code : Nat) : NotifyOutcome
deriving DecidableEq, Repr

/-- CequenceClient._send_initialized_notification: returns early when
no (truthy) session id is stored; otherwise posts the notification.
A raised exception is returned; any response status is only logged.
The state is never modified. -/
def _send_initialized_notification (st : CequenceState)
    (wire : NotifyOutcome) : Option String :=
  match st.session_id with
  | none => none
  | some sid =>
    if sid = "" then none
    else
      match wire with
      | NotifyOutcome.exc msg => some msg
      | NotifyOutcome.resp _ => none

/-- CequenceClient._ensure_initialized: a no-op once initialized;
otherwise post the initialize request (initWire). On HTTP 200, store
the session id from the Mcp-Session-Id header, set the flag, and then
await the initialized notification (notifyWire) inside the same try
block: if that second post raises, the exception propagates through
the except clause after the state has already been set. On any other
initialize status or a raised initialize post, raise and leave the
state untouched. Returns (new state, whether an initialize request
was sent, raised error). -/
def ensure_initialized (st : CequenceState) (initWire : InitOutcome)
    (notifyWire : NotifyOutcome) : CequenceState × Bool × Option String :=
  if st.initialized then
    (st, false, none)
  else
    match initWire with
    | InitOutcome.exc msg => (st, true, some msg)
    | InitOutcome.resp status sid =>
      if status == 200 then
        ({ session_id := sid, initialized := true }, true,
          _send_initialized_notification
            { session_id := sid, initialized := true } notifyWire)
      else
        (st, true, some ("Gateway initialization failed: " ++ toString status))

/-- CequenceClient._get_mcp_headers: the base MCP headers, plus the
stored session id when one is present (Python truthiness: a missing or
empty session id adds no header). -/
def _get_mcp_headers (st : CequenceState) : List (String × String) :=
  let headers := [("Content-Type", "application/json"),
    ("Accept", "application/json, text/event-stream"),
    ("MCP-Protocol-Version", "2024-11-05"),
    ("User-Agent", "DevOps-MCP-Server/1.0")]
  match st.session_id with
  | some sid => if sid = "" then headers else headers ++ [("Mcp-Session-Id", sid)]
  | none => headers

/-- Python attribute lookup on a DirectRouter instance for the name
deploy_service: DirectRouter.__init__ assigns the instance attribute
self.deploy_service = DeployService(CICDClient()), which shadows the
deploy_service method inherited from the class, so any call of
router.deploy_service(...) from outside raises
TypeError: 'DeployService' object is not callable, before the method
body (embedded above as DirectRouter.deploy_service) can run. No
permission check and no service call happen. -/
def DirectRouter.call_deploy_service (svc : DirectServices) (user : UserPrincipal)
    (service_name version environment : String) : RouterCall :=
  (Except.error (PyErr.exc "TypeError: 'DeployService' object is not callable"), [])

/-- MCPToolService.deploy_service (mcp_service.py): call the router
selected by the factory; on any exception escaping a cequence router
call, build a fresh DirectRouter and invoke it once with identical
arguments, returning its result; in direct mode exceptions propagate.
Calls on a DirectRouter instance go through the shadowed attribute
(DirectRouter.call_deploy_service). The second component lists the
argument tuples of the fallback DirectRouter invocations. -/
def MCPToolService.deploy_service (settings : Settings)
    (transport : TransportOutcome) (svc : DirectServices) (user : UserPrincipal)
    (service_name version environment : String) :
    Except PyErr RouterOutput × List (String × String × String) :=
  if get_router_type settings == "cequence" then
    match (CequenceRouter.deploy_service transport user service_name version environment).1 with
    | Except.ok r => (Except.ok r, [])
    | Except.error _ =>
      ((DirectRouter.call_deploy_service svc user service_name version environment).1,
        [(service_name, version, environment)])
  else
    ((DirectRouter.call_deploy_service svc user service_name version environment).1, [])

/-- A principal allowed to deploy to production. -/
def prodDeployer : UserPrincipal :=
  { user_id := "dep1", permissions := ["deploy_production"] }

/- ## Theorems -/
theorem scanClose_length : ∀ (l body r : List Char),
    scanClose l = some (body, r) → r.length < l.length := by
  intro l
  induction l with
  | nil => intro body r h; simp [scanClose] at h
  | cons c rest ih =>
    intro body r h
    simp only [scanClose] at h
    split at h
    · cases h; simp
    · cases heq : scanClose rest with
      | none => rw [heq] at h; exact Option.noConfusion h
      | some p =>
        cases p with
        | mk b2 r2 =>
          rw [heq] at h
          cases h
          have hlt := ih _ _ heq
          simp only [List.length_cons]
          omega

theorem ifTail_length (b : Bool) (m : List Char) :
    (if b = true then m.tail else m).length ≤ m.length := by
  cases b <;> simp [List.length_tail]

theorem parseClass_length (l : List Char) (neg : Bool) (body r : List Char)
    (h : parseClass l = some (neg, body, r)) : r.length < l.length := by
  unfold parseClass at h
  cases heq : scanClose (if headIs ']' (if headIs '!' l then l.tail else l)
      then (if headIs '!' l then l.tail else l).tail
      else (if headIs '!' l then l.tail else l)) with
  | none =>
    simp only [heq] at h
    exact Option.noConfusion h
  | some p =>
    cases p with
    | mk b2 r2 =>
      simp only [heq] at h
      cases h
      have hlt := scanClose_length _ _ _ heq
      have h1 : (if headIs '!' l = true then l.tail else l).length ≤ l.length :=
        ifTail_length _ _
      have h2 : (if headIs ']' (if headIs '!' l = true then l.tail else l) = true
          then (if headIs '!' l = true then l.tail else l).tail
          else (if headIs '!' l = true then l.tail else l)).length ≤
          (if headIs '!' l = true then l.tail else l).length :=
        ifTail_length _ _
      omega

theorem parsePatternGo_literal : ∀ (fuel : Nat) (p : List Char),
    p.length ≤ fuel → p.all literalChar = true →
    parsePatternGo fuel p = p.map GlobTok.lit := by
  intro fuel
  induction fuel with
  | zero =>
    intro p hlen _
    cases p with
    | nil => rfl
    | cons c pr => simp at hlen
  | succ f ih =>
    intro p hlen hlit
    cases p with
    | nil => rfl
    | cons c pr =>
      simp only [List.all_cons, Bool.and_eq_true] at hlit
      obtain ⟨hc, hpr⟩ := hlit
      have h1 : ¬ (c = '*') := by intro e; subst e; simp [literalChar] at hc
      have h2 : ¬ (c = '?') := by intro e; subst e; simp [literalChar] at hc
      have h3 : ¬ (c = '[') := by intro e; subst e; simp [literalChar] at hc
      have hlen' : pr.length ≤ f := by simp only [List.length_cons] at hlen; omega
      simp only [parsePatternGo, if_neg h1, if_neg h2, if_neg h3, List.map_cons]
      exact congrArg _ (ih pr hlen' hpr)

theorem tokMatch_lits : ∀ (p s : List Char),
    tokMatch (p.map GlobTok.lit) s = true ↔ s = p := by
  intro p
  induction p with
  | nil =>
    intro s
    simp [tokMatch, List.isEmpty_iff]
  | cons pc pt ih =>
    intro s
    cases s with
    | nil => simp [tokMatch]
    | cons c sr =>
      simp only [List.map_cons, tokMatch, tokCharMatch, Bool.and_eq_true, beq_iff_eq]
      rw [ih sr]
      constructor
      · rintro ⟨h1, h2⟩
        rw [h1, h2]
      · intro h
        cases h
        exact ⟨rfl, rfl⟩

theorem fnmatchcase_literal (s pat : String) (h : literalStr pat = true) :
    (fnmatchcase s pat = true) ↔ s = pat := by
  have h2 : pat.data.all literalChar = true := h
  unfold fnmatchcase parsePattern
  rw [parsePatternGo_literal _ _ le_rfl h2, tokMatch_lits]
  constructor
  · intro hd
    exact String.ext hd
  · intro hd
    rw [hd]

/-- With the admin wildcard absent, has_scopes in mode "any" reduces to
_match_any on the effective scopes. -/
theorem has_scopes_any_eq (p : UserPrincipal) (required : List String)
    (hadmin : ((effective_scopes p).any fun s => s == "*" || s == "admin:*") = false) :
    has_scopes p required "any" = _match_any (effective_scopes p) required := by
  simp [has_scopes, hadmin]

/-- With the admin wildcard absent, has_scopes in mode "all" reduces to
_match_all on the effective scopes. -/
theorem has_scopes_all_eq (p : UserPrincipal) (required : List String)
    (hadmin : ((effective_scopes p).any fun s => s == "*" || s == "admin:*") = false) :
    has_scopes p required "all" = _match_all (effective_scopes p) required := by
  simp [has_scopes, hadmin]

/-- On glob-free strings, the bidirectional fnmatch test is equality. -/
theorem matchPair_literal (u r : String) (hu : literalStr u = true)
    (hr : literalStr r = true) :
    (fnmatchcase u r || fnmatchcase r u) = true ↔ u = r := by
  rw [Bool.or_eq_true, fnmatchcase_literal _ _ hr, fnmatchcase_literal _ _ hu]
  constructor
  · rintro (h | h)
    · exact h
    · exact h.symm
  · intro h
    exact Or.inl h

/-- C1 (amended): restricted to glob-free scope strings, mode "any" is
non-empty intersection and mode "all" is inclusion of the required set
in the effective set. In general the check uses bidirectional glob
matching, which is strictly coarser (see the counterexample). -/
theorem has_scopes_literal_any_inter_all_subset (p : UserPrincipal)
    (required : List String)
    (heff : (effective_scopes p).all literalStr = true)
    (hreq : required.all literalStr = true) :
    (has_scopes p required "any" = true ↔
      ∃ s, s ∈ effective_scopes p ∧ s ∈ required) ∧
    (has_scopes p required "all" = true ↔
      ∀ r ∈ required, r ∈ effective_scopes p) := by
  have heff' : ∀ s ∈ effective_scopes p, literalStr s = true := by
    simpa [List.all_eq_true] using heff
  have hreq' : ∀ r ∈ required, literalStr r = true := by
    simpa [List.all_eq_true] using hreq
  have hadmin : ((effective_scopes p).any fun s => s == "*" || s == "admin:*") = false := by
    rw [List.any_eq_false]
    intro s hs
    have hlit := heff' s hs
    simp only [Bool.or_eq_true, beq_iff_eq]
    rintro (rfl | rfl) <;> simp [literalStr, literalChar] at hlit
  constructor
  · rw [has_scopes_any_eq p required hadmin]
    unfold _match_any
    rw [List.any_eq_true]
    constructor
    · rintro ⟨us, hus, h⟩
      rw [List.any_eq_true] at h
      obtain ⟨r, hr, hm⟩ := h
      rw [matchPair_literal us r (heff' us hus) (hreq' r hr)] at hm
      exact ⟨us, hus, hm ▸ hr⟩
    · rintro ⟨s, hs, hsr⟩
      refine ⟨s, hs, ?_⟩
      rw [List.any_eq_true]
      exact ⟨s, hsr, (matchPair_literal s s (heff' s hs) (heff' s hs)).mpr rfl⟩
  · rw [has_scopes_all_eq p required hadmin]
    unfold _match_all
    rw [List.all_eq_true]
    constructor
    · intro h r hr
      have := h r hr
      rw [List.any_eq_true] at this
      obtain ⟨us, hus, hm⟩ := this
      rw [matchPair_literal us r (heff' us hus) (hreq' r hr)] at hm
      exact hm ▸ hus
    · intro h r hr
      rw [List.any_eq_true]
      exact ⟨r, h r hr, (matchPair_literal r r (heff' r (h r hr)) (hreq' r hr)).mpr rfl⟩

/-- C1 counterexample: with effective set containing the pattern
"deploy.*" and required set containing only "deploy.production",
has_scopes in mode "any" answers true although the two sets have empty
intersection, refuting the pure set-intersection characterisation. -/
theorem has_scopes_any_not_intersection :
    has_scopes globPrincipal ["deploy.production"] "any" = true ∧
    ((effective_scopes globPrincipal).all
      fun s => !(["deploy.production"] : List String).contains s) = true := by
  constructor
  · decide
  · decide

/-- Witness instantiating the amended C1 theorem at concrete input. -/
theorem has_scopes_literal_any_inter_all_subset_witness :
    ((effective_scopes obsPrincipal).all literalStr = true) ∧
    ((["logs.read", "metrics.read"] : List String).all literalStr = true) ∧
    ((has_scopes obsPrincipal ["logs.read", "metrics.read"] "any" = true ↔
        ∃ s, s ∈ effective_scopes obsPrincipal ∧
          s ∈ (["logs.read", "metrics.read"] : List String)) ∧
      (has_scopes obsPrincipal ["logs.read", "metrics.read"] "all" = true ↔
        ∀ r ∈ (["logs.read", "metrics.read"] : List String),
          r ∈ effective_scopes obsPrincipal)) :=
  ⟨by decide, by decide,
    has_scopes_literal_any_inter_all_subset obsPrincipal
      ["logs.read", "metrics.read"] (by decide) (by decide)⟩

/-- C2 (amended): the admin wildcard in the effective scope set makes
has_scopes answer true for every required set and every mode, while the
router-level check_permission is a literal membership test on
user.permissions that the wildcard does not satisfy. -/
theorem wildcard_has_scopes_but_check_permission_membership :
    (∀ (p : UserPrincipal) (required : List String) (mode : String),
      ((effective_scopes p).any fun s => s == "*" || s == "admin:*") = true →
      has_scopes p required mode = true) ∧
    (∀ (u : UserPrincipal) (perm : String) (res : Option String),
      check_permission u perm res = Except.ok () ↔
        u.permissions.contains perm = true) := by
  constructor
  · intro p required mode hadmin
    simp [has_scopes, hadmin]
  · intro u perm res
    unfold check_permission
    cases hmem : u.permissions.contains perm with
    | false => simp
    | true => simp

/-- C2 counterexample: a principal whose effective set contains the
admin wildcard passes has_scopes, yet the router-level permission check
used by get_logs rejects it with 403 because "read_logs" is not
literally among its permissions. -/
theorem wildcard_fails_router_check :
    ((effective_scopes adminStar).any fun s => s == "*" || s == "admin:*") = true ∧
    has_scopes adminStar ["read_logs"] "all" = true ∧
    isHttpErrorWith 403 (check_permission adminStar "read_logs" (some "read logs")) = true := by
  refine ⟨by decide, by decide, by decide⟩

/-- Witness instantiating the amended C2 theorem at concrete input. -/
theorem wildcard_has_scopes_but_check_permission_membership_witness :
    has_scopes adminStar ["deploy_production"] "weird-mode" = true ∧
    (check_permission adminStar "read_logs" none = Except.ok () ↔
      adminStar.permissions.contains "read_logs" = true) :=
  ⟨wildcard_has_scopes_but_check_permission_membership.1 adminStar
      ["deploy_production"] "weird-mode" (by decide),
    wildcard_has_scopes_but_check_permission_membership.2 adminStar
      "read_logs" none⟩

theorem list_contains_iff {α : Type} [BEq α] [LawfulBEq α] (l : List α) (x : α) :
    l.contains x = true ↔ x ∈ l :=
  ⟨List.mem_of_elem_eq_true, List.elem_eq_true_of_mem⟩

theorem ROLE_PERMISSIONS_subset (role p : String)
    (hp : p ∈ ROLE_PERMISSIONS role) : p ∈ AVAILABLE_PERMISSIONS := by
  unfold ROLE_PERMISSIONS at hp
  split_ifs at hp
  · fin_cases hp <;> decide
  · fin_cases hp <;> decide
  · fin_cases hp <;> decide
  · simp at hp

/-- Supporting fact for C4: whenever no JWT permission claim matches
AVAILABLE_PERMISSIONS, the role-derived fallback of
extract_user_principal also produces nothing, because ROLE_PERMISSIONS
only lists permissions drawn from AVAILABLE_PERMISSIONS and the derived
list is re-matched against the same JWT permission claims. -/
theorem role_fallback_filtered_empty (jwt : JwtClaims)
    (h : get_matched jwt.permissions AVAILABLE_PERMISSIONS = []) :
    (extract_roles_permissions jwt).2 = [] := by
  rw [List.eq_nil_iff_forall_not_mem]
  intro x hx
  unfold extract_roles_permissions at hx
  split_ifs at hx
  · simp only at hx
    unfold get_matched at hx
    rw [List.mem_filter] at hx
    obtain ⟨hxp, hxc⟩ := hx
    rw [list_contains_iff, List.mem_dedup, List.mem_flatMap] at hxc
    obtain ⟨role, _, hrole⟩ := hxc
    have hav : x ∈ AVAILABLE_PERMISSIONS := ROLE_PERMISSIONS_subset role x hrole
    have : x ∈ get_matched jwt.permissions AVAILABLE_PERMISSIONS := by
      unfold get_matched
      rw [List.mem_filter]
      exact ⟨hxp, (list_contains_iff _ _).mpr hav⟩
    rw [h] at this
    exact List.not_mem_nil x this
  · simp only at hx
    rw [h] at hx
    exact List.not_mem_nil x hx
  · simp only at hx
    rw [h] at hx
    exact List.not_mem_nil x hx

/-- C4 (code bug): for claims with roles=["developer"] and no direct
permission claims, the code logs that it derives permissions from the
role, but then re-matches the derived list against the (empty) JWT
permission claims, so the resolved principal ends up with no
permissions at all instead of the Policy Table expansion of
"developer". -/
theorem developer_role_fallback_yields_no_permissions :
    extract_roles_permissions developerJwt = (["developer"], []) ∧
    ROLE_PERMISSIONS "developer" =
      ["read_metrics", "read_logs", "read_deployments", "deploy_staging",
       "rollback_staging"] ∧
    (extract_user_principal developerJwt "tok").permissions = [] := by
  refine ⟨by decide, by decide, by decide⟩

/-- C8: with anonymous access enabled, principal resolution returns the
fixed synthetic anonymous principal for every request, performs zero
identity-provider calls, and is therefore identical across requests
with different headers, cookies or tokens. -/
theorem anonymous_resolution_fixed_and_offline (settings : Settings)
    (descope : DescopeOracle) (req req2 : Request)
    (hanon : settings.AUTH_ALLOW_ANONYMOUS = true) :
    get_current_user settings descope req = (Except.ok anonymousPrincipal, 0) ∧
    get_current_user settings descope req = get_current_user settings descope req2 ∧
    anonymousPrincipal.user_id = "anonymous" ∧
    anonymousPrincipal.roles = ["anonymous"] ∧
    anonymousPrincipal.permissions = ["read_logs", "read_metrics"] := by
  unfold get_current_user
  rw [if_pos hanon, if_pos hanon]
  exact ⟨rfl, rfl, rfl, rfl, rfl⟩

/-- Witness instantiating the C8 theorem at two concrete requests with
different headers and tokens. -/
theorem anonymous_resolution_fixed_and_offline_witness :
    get_current_user { AUTH_ALLOW_ANONYMOUS := true } rejectAllOracle
        { headers := [("x-debug", "1")], bearer := some "tok-a" } =
      (Except.ok anonymousPrincipal, 0) ∧
    get_current_user { AUTH_ALLOW_ANONYMOUS := true } rejectAllOracle
        { headers := [("x-debug", "1")], bearer := some "tok-a" } =
      get_current_user { AUTH_ALLOW_ANONYMOUS := true } rejectAllOracle
        { headers := [("x-other", "2")], cookies := [("DSR", "r")] } ∧
    anonymousPrincipal.user_id = "anonymous" ∧
    anonymousPrincipal.roles = ["anonymous"] ∧
    anonymousPrincipal.permissions = ["read_logs", "read_metrics"] :=
  anonymous_resolution_fixed_and_offline { AUTH_ALLOW_ANONYMOUS := true }
    rejectAllOracle
    { headers := [("x-debug", "1")], bearer := some "tok-a" }
    { headers := [("x-other", "2")], cookies := [("DSR", "r")] } rfl

/-- C10: the dependency built by require_permissions grants access to
any principal whose user_id is "anonymous" without inspecting its
permissions; in particular the synthetic anonymous principal, which
carries only read_logs and read_metrics, passes the /deploy endpoint
gate requiring deploy_staging or deploy_production. -/
theorem require_permissions_anonymous_bypass :
    (∀ (required : List String) (user : UserPrincipal),
      user.user_id = "anonymous" →
      require_permissions required user = Except.ok user) ∧
    require_permissions ["deploy_staging", "deploy_production"] anonymousPrincipal =
      Except.ok anonymousPrincipal ∧
    anonymousPrincipal.permissions.contains "deploy_staging" = false ∧
    anonymousPrincipal.permissions.contains "deploy_production" = false := by
  refine ⟨?_, rfl, by decide, by decide⟩
  intro required user h
  unfold require_permissions
  rw [if_pos (by simp [h])]

/-- Witness instantiating the C10 theorem at a concrete required list
and principal. -/
theorem require_permissions_anonymous_bypass_witness :
    require_permissions ["rollback_production"] oddAnonymous =
      Except.ok oddAnonymous :=
  require_permissions_anonymous_bypass.1 ["rollback_production"] oddAnonymous rfl

/-- C3 (code bug): deploy through the direct router with the
unrecognized environment "dev" performs no permission check and raises
no 400 validation error: the call reaches the deploy service of a
principal holding no permissions at all and succeeds. Rollback with
the same environment value raises 400 before any service call, showing
the intended validation exists but is missing on the deploy path. -/
theorem deploy_unknown_environment_reaches_service :
    (DirectRouter.deploy_service okServices noPermUser "payment-service" "1.2.3" "dev").1 =
      Except.ok (RouterOutput.tool
        { tool := "deploy_service", success := true,
          result := some ⟨"deployment-accepted"⟩ }) ∧
    (DirectRouter.deploy_service okServices noPermUser "payment-service" "1.2.3" "dev").2 =
      [Event.transport "deploy_service.deploy"] ∧
    isPyHttp 400
      (DirectRouter.rollback_deployment okServices noPermUser
        "dep-1" "memory leak fix" "dev").1 = true ∧
    countTransport
      (DirectRouter.rollback_deployment okServices noPermUser
        "dep-1" "memory leak fix" "dev").2 = 0 :=
  ⟨rfl, by decide, by decide, by decide⟩

theorem callGateway_trace (tp : TransportOutcome) (op : String) (pre : List Event) :
    (CequenceRouter.callGateway tp op pre).2 = pre ++ [Event.transport op] := by
  cases tp with
  | error m => rfl
  | ok resp =>
    cases h1 : _handle_gateway_error resp with
    | error m => simp [CequenceRouter.callGateway, h1]
    | ok u =>
      cases h2 : _parse_mcp_response resp with
      | ok j => simp [CequenceRouter.callGateway, h1, h2]
      | error m => simp [CequenceRouter.callGateway, h1, h2]

theorem ctt_nil : checksThenTransports [] = true := rfl

theorem ctt_check (p : String) : checksThenTransports [Event.permCheck p] = true := rfl

theorem ctt_check_transport (p o : String) :
    checksThenTransports [Event.permCheck p, Event.transport o] = true := rfl

theorem ctt_transport (o : String) :
    checksThenTransports [Event.transport o] = true := rfl

theorem not_mem_of_contains_false {α : Type} [BEq α] [LawfulBEq α]
    {l : List α} {x : α} (h : l.contains x = false) : ¬ (x ∈ l) := by
  intro hm
  rw [(list_contains_iff l x).mpr hm] at h
  cases h

/-- C5: a failed permission check on any Cequence router operation
yields an immediate HTTPException 403 with zero outbound calls, and on
every operation and every input, all permission-check events precede
all outbound calls in the trace. -/
theorem cequence_perm_failure_403_no_transport :
    (∀ (g : DummyDataGenerator) (bg : TransportOutcome) (user : UserPrincipal)
        (level : Option String) (limit : Nat),
      user.permissions.contains "read_logs" = false →
      isPyHttp 403 (CequenceRouter.get_logs g bg user level limit).1 = true ∧
      countTransport (CequenceRouter.get_logs g bg user level limit).2 = 0) ∧
    (∀ (g : DummyDataGenerator) (bg : TransportOutcome) (user : UserPrincipal)
        (limit : Nat) (service : Option String),
      user.permissions.contains "read_metrics" = false →
      isPyHttp 403 (CequenceRouter.get_metrics g bg user limit service).1 = true ∧
      countTransport (CequenceRouter.get_metrics g bg user limit service).2 = 0) ∧
    (∀ (tp : TransportOutcome) (user : UserPrincipal) (sn v : String),
      user.permissions.contains "deploy_production" = false →
      isPyHttp 403 (CequenceRouter.deploy_service tp user sn v "production").1 = true ∧
      countTransport (CequenceRouter.deploy_service tp user sn v "production").2 = 0) ∧
    (∀ (tp : TransportOutcome) (user : UserPrincipal) (sn v : String),
      user.permissions.contains "deploy_staging" = false →
      isPyHttp 403 (CequenceRouter.deploy_service tp user sn v "staging").1 = true ∧
      countTransport (CequenceRouter.deploy_service tp user sn v "staging").2 = 0) ∧
    (∀ (tp : TransportOutcome) (user : UserPrincipal) (dep reason : String),
      user.permissions.contains "rollback_production" = false →
      isPyHttp 403 (CequenceRouter.rollback_deployment tp user dep reason "production").1 = true ∧
      countTransport (CequenceRouter.rollback_deployment tp user dep reason "production").2 = 0) ∧
    (∀ (tp : TransportOutcome) (user : UserPrincipal) (dep reason : String),
      user.permissions.contains "rollback_staging" = false →
      isPyHttp 403 (CequenceRouter.rollback_deployment tp user dep reason "staging").1 = true ∧
      countTransport (CequenceRouter.rollback_deployment tp user dep reason "staging").2 = 0) ∧
    (∀ (g : DummyDataGenerator) (bg tp : TransportOutcome) (user : UserPrincipal)
        (level service : Option String) (limit : Nat) (sn v dep reason env : String),
      checksThenTransports (CequenceRouter.get_logs g bg user level limit).2 = true ∧
      checksThenTransports (CequenceRouter.get_metrics g bg user limit service).2 = true ∧
      checksThenTransports (CequenceRouter.deploy_service tp user sn v env).2 = true ∧
      checksThenTransports (CequenceRouter.rollback_deployment tp user dep reason env).2 = true) := by
  refine ⟨?_, ?_, ?_, ?_, ?_, ?_, ?_⟩
  · intro g bg user level limit h
    simp [CequenceRouter.get_logs, check_permission, not_mem_of_contains_false h,
      isPyHttp, countTransport, isPermCheck]
  · intro g bg user limit service h
    simp [CequenceRouter.get_metrics, check_permission, not_mem_of_contains_false h,
      isPyHttp, countTransport, isPermCheck]
  · intro tp user sn v h
    simp [CequenceRouter.deploy_service, check_permission,
      not_mem_of_contains_false h, isPyHttp, countTransport, isPermCheck]
  · intro tp user sn v h
    simp [CequenceRouter.deploy_service, check_permission,
      not_mem_of_contains_false h, isPyHttp, countTransport, isPermCheck]
  · intro tp user dep reason h
    simp [CequenceRouter.rollback_deployment, check_permission,
      not_mem_of_contains_false h, isPyHttp, countTransport, isPermCheck]
  · intro tp user dep reason h
    simp [CequenceRouter.rollback_deployment, check_permission,
      not_mem_of_contains_false h, isPyHttp, countTransport, isPermCheck]
  · intro g bg tp user level service limit sn v dep reason env
    refine ⟨?_, ?_, ?_, ?_⟩
    · unfold CequenceRouter.get_logs
      cases check_permission user "read_logs" (some "read logs") with
      | error e => exact ctt_check "read_logs"
      | ok u => exact ctt_check_transport "read_logs" "cequence_client.get_logs"
    · unfold CequenceRouter.get_metrics
      cases check_permission user "read_metrics" (some "read metrics") with
      | error e => exact ctt_check "read_metrics"
      | ok u => exact ctt_check_transport "read_metrics" "cequence_client.get_metrics"
    · unfold CequenceRouter.deploy_service
      split_ifs
      · cases check_permission user "deploy_production" (some "deploy to production") with
        | error e => exact ctt_check "deploy_production"
        | ok u =>
          rw [callGateway_trace]
          exact ctt_check_transport "deploy_production" "cequence_client.deploy_service"
      · cases check_permission user "deploy_staging" (some "deploy to staging") with
        | error e => exact ctt_check "deploy_staging"
        | ok u =>
          rw [callGateway_trace]
          exact ctt_check_transport "deploy_staging" "cequence_client.deploy_service"
      · rw [callGateway_trace]
        exact ctt_transport "cequence_client.deploy_service"
    · unfold CequenceRouter.rollback_deployment
      split_ifs
      · cases check_permission user "rollback_production" (some "perform production rollbacks") with
        | error e => exact ctt_check "rollback_production"
        | ok u =>
          rw [callGateway_trace]
          exact ctt_check_transport "rollback_production" "cequence_client.rollback_deployment"
      · cases check_permission user "rollback_staging" (some "perform staging rollbacks") with
        | error e => exact ctt_check "rollback_staging"
        | ok u =>
          rw [callGateway_trace]
          exact ctt_check_transport "rollback_staging" "cequence_client.rollback_deployment"
      · exact ctt_nil

/-- With a failing transport, every cequence rollback call raises. -/
theorem cequence_rollback_raises (tp : TransportOutcome) (user : UserPrincipal)
    (dep reason env : String) (h : transportFailed tp = true) :
    ∃ e, (CequenceRouter.rollback_deployment tp user dep reason env).1 =
      Except.error e := by
  have hgw : ∀ pre, ∃ e,
      (CequenceRouter.callGateway tp "cequence_client.rollback_deployment" pre).1 =
        Except.error e := by
    intro pre
    cases tp with
    | error m => exact ⟨PyErr.exc m, rfl⟩
    | ok resp =>
      have h4 : 400 ≤ resp.status_code := by
        unfold transportFailed at h
        simpa using h
      have h1 : _handle_gateway_error resp =
          Except.error ("Gateway error: " ++ toString resp.status_code) := by
        unfold _handle_gateway_error
        rw [if_pos h4]
      refine ⟨PyErr.exc ("Gateway error: " ++ toString resp.status_code), ?_⟩
      simp [CequenceRouter.callGateway, h1]
  unfold CequenceRouter.rollback_deployment
  split_ifs
  · cases hc : check_permission user "rollback_production" (some "perform production rollbacks") with
    | error e =>
      simp only [hc]
      exact ⟨PyErr.http e, rfl⟩
    | ok u =>
      simp only [hc]
      exact hgw [Event.permCheck "rollback_production"]
  · cases hc : check_permission user "rollback_staging" (some "perform staging rollbacks") with
    | error e =>
      simp only [hc]
      exact ⟨PyErr.http e, rfl⟩
    | ok u =>
      simp only [hc]
      exact hgw [Event.permCheck "rollback_staging"]
  · exact ⟨PyErr.http ⟨400, "Invalid environment. Must be 'staging' or 'production'"⟩, rfl⟩

/-- C6: when the proxied transport fails or returns a non-success
status, a rollback through the MCP tool service in cequence mode
invokes the Direct Router exactly once with identical arguments, and
the caller-visible result is exactly what a pure direct-mode call with
the same arguments returns. -/
theorem mcp_rollback_fallback_direct (settings : Settings) (tp : TransportOutcome)
    (svc : DirectServices) (user : UserPrincipal) (dep reason env : String)
    (hceq : get_router_type settings = "cequence")
    (hfail : transportFailed tp = true) :
    MCPToolService.rollback_deployment settings tp svc user dep reason env =
      ((DirectRouter.rollback_deployment svc user dep reason env).1,
        [(dep, reason, env)]) := by
  obtain ⟨e, he⟩ := cequence_rollback_raises tp user dep reason env hfail
  unfold MCPToolService.rollback_deployment
  rw [hceq]
  simp [he]

/-- Witness instantiating the C6 theorem at concrete input. -/
theorem mcp_rollback_fallback_direct_witness :
    get_router_type cequenceSettings = "cequence" ∧
    transportFailed failTransport = true ∧
    MCPToolService.rollback_deployment cequenceSettings failTransport okServices
        stagingRollbacker "dep-42" "memory leak rollback" "staging" =
      ((DirectRouter.rollback_deployment okServices stagingRollbacker
          "dep-42" "memory leak rollback" "staging").1,
        [("dep-42", "memory leak rollback", "staging")]) :=
  ⟨rfl, rfl,
    mcp_rollback_fallback_direct cequenceSettings failTransport okServices
      stagingRollbacker "dep-42" "memory leak rollback" "staging" rfl rfl⟩

theorem generate_logs_length (g : DummyDataGenerator) (c : Nat) (lv : Option String) :
    (generate_logs g c lv).length = c := by
  simp [generate_logs]

theorem generate_metrics_length (g : DummyDataGenerator) (c : Nat) (sv : Option String)
    (hc : c ≤ 15) : (generate_metrics g c sv).length = c := by
  have h15 : METRIC_CONFIGS.length = 15 := rfl
  simp only [generate_metrics, List.length_map, List.length_take, h15]
  omega

/-- C7: on the proxied router, a permitted read returns an immediate
placeholder built from locally generated dummy entries: loading is
true, count equals the data length, and the data length is
min(limit, 15) for logs and min(limit, 10) for metrics; the real
gateway call is spawned as a detached background task (the transport
event in the trace) whose outcome never influences the returned
value. -/
theorem cequence_reads_optimistic_placeholder
    (g : DummyDataGenerator) (bg bg2 : TransportOutcome) (user : UserPrincipal)
    (level : Option String) (limL limM : Nat) (service : Option String)
    (hlogs : user.permissions.contains "read_logs" = true)
    (hmetrics : user.permissions.contains "read_metrics" = true) :
    ((CequenceRouter.get_logs g bg user level limL).1 =
        Except.ok (RouterOutput.logs
          { uri := "logs", rtype := "logs",
            count := min limL 15, levelFilter := level, limitFilter := limL,
            loading := true, message := some "Loading real data in background...",
            data := generate_logs g (min limL 15) level }) ∧
      (generate_logs g (min limL 15) level).length = min limL 15) ∧
    (CequenceRouter.get_logs g bg user level limL).2 =
      [Event.permCheck "read_logs", Event.transport "cequence_client.get_logs"] ∧
    CequenceRouter.get_logs g bg user level limL =
      CequenceRouter.get_logs g bg2 user level limL ∧
    ((CequenceRouter.get_metrics g bg user limM service).1 =
        Except.ok (RouterOutput.metrics
          { uri := "metrics", rtype := "metrics",
            count := min limM 10, limitFilter := limM,
            loading := true, message := some "Loading real data in background...",
            data := generate_metrics g (min limM 10) service }) ∧
      (generate_metrics g (min limM 10) service).length = min limM 10) ∧
    (CequenceRouter.get_metrics g bg user limM service).2 =
      [Event.permCheck "read_metrics", Event.transport "cequence_client.get_metrics"] ∧
    CequenceRouter.get_metrics g bg user limM service =
      CequenceRouter.get_metrics g bg2 user limM service := by
  have hcl : check_permission user "read_logs" (some "read logs") = Except.ok () := by
    unfold check_permission
    rw [hlogs]
    rfl
  have hcm : check_permission user "read_metrics" (some "read metrics") = Except.ok () := by
    unfold check_permission
    rw [hmetrics]
    rfl
  have hlen : (generate_logs g (min limL 15) level).length = min limL 15 :=
    generate_logs_length g (min limL 15) level
  have hlenM : (generate_metrics g (min limM 10) service).length = min limM 10 :=
    generate_metrics_length g (min limM 10) service (by omega)
  refine ⟨⟨?_, hlen⟩, ?_, rfl, ⟨?_, hlenM⟩, ?_, rfl⟩
  · simp only [CequenceRouter.get_logs, hcl, hlen]
  · simp only [CequenceRouter.get_logs, hcl]
  · simp only [CequenceRouter.get_metrics, hcm, hlenM]
  · simp only [CequenceRouter.get_metrics, hcm]

/-- Witness instantiating the C7 theorem at concrete input: two
different background outcomes, limits 7 and 3. -/
theorem cequence_reads_optimistic_placeholder_witness :
    ((CequenceRouter.get_logs fixedGenerator okTransport readerUser none 7).1 =
        Except.ok (RouterOutput.logs
          { uri := "logs", rtype := "logs",
            count := min 7 15, levelFilter := none, limitFilter := 7,
            loading := true, message := some "Loading real data in background...",
            data := generate_logs fixedGenerator (min 7 15) none }) ∧
      (generate_logs fixedGenerator (min 7 15) none).length = min 7 15) ∧
    (CequenceRouter.get_logs fixedGenerator okTransport readerUser none 7).2 =
      [Event.permCheck "read_logs", Event.transport "cequence_client.get_logs"] ∧
    CequenceRouter.get_logs fixedGenerator okTransport readerUser none 7 =
      CequenceRouter.get_logs fixedGenerator failTransport readerUser none 7 ∧
    ((CequenceRouter.get_metrics fixedGenerator okTransport readerUser 3 none).1 =
        Except.ok (RouterOutput.metrics
          { uri := "metrics", rtype := "metrics",
            count := min 3 10, limitFilter := 3,
            loading := true, message := some "Loading real data in background...",
            data := generate_metrics fixedGenerator (min 3 10) none }) ∧
      (generate_metrics fixedGenerator (min 3 10) none).length = min 3 10) ∧
    (CequenceRouter.get_metrics fixedGenerator okTransport readerUser 3 none).2 =
      [Event.permCheck "read_metrics", Event.transport "cequence_client.get_metrics"] ∧
    CequenceRouter.get_metrics fixedGenerator okTransport readerUser 3 none =
      CequenceRouter.get_metrics fixedGenerator failTransport readerUser 3 none :=
  cequence_reads_optimistic_placeholder fixedGenerator okTransport failTransport
    readerUser none 7 3 none (by decide) (by decide)

/-- Witness instantiating the C5 theorem at concrete input: a
permissionless principal denied on a read and on a production deploy,
with zero outbound calls. -/
theorem cequence_perm_failure_403_no_transport_witness :
    noPermUser.permissions.contains "read_logs" = false ∧
    (isPyHttp 403
        (CequenceRouter.get_logs fixedGenerator okTransport noPermUser none 100).1 = true ∧
      countTransport
        (CequenceRouter.get_logs fixedGenerator okTransport noPermUser none 100).2 = 0) ∧
    noPermUser.permissions.contains "deploy_production" = false ∧
    (isPyHttp 403
        (CequenceRouter.deploy_service okTransport noPermUser "svc" "1.0" "production").1 = true ∧
      countTransport
        (CequenceRouter.deploy_service okTransport noPermUser "svc" "1.0" "production").2 = 0) :=
  ⟨by decide,
    cequence_perm_failure_403_no_transport.1 fixedGenerator okTransport noPermUser
      none 100 (by decide),
    by decide,
    cequence_perm_failure_403_no_transport.2.2.1 okTransport noPermUser
      "svc" "1.0" (by decide)⟩

/-- C9 counterexample: the initialize post returns 200 so the session
id is stored and the flag set, then the initialized-notification post
raises inside the same try block; the exception propagates through the
except clause, so the triggering call fails although the handshake
state is already Ready with the session id stored — refuting the
clause that a failed initialization leaves initialized false with no
session id stored. -/
theorem handshake_ready_despite_raised_notification :
    (ensure_initialized { } (InitOutcome.resp 200 (some "sess-9"))
        (NotifyOutcome.exc "notification connection reset")).2.2 =
      some "notification connection reset" ∧
    (ensure_initialized { } (InitOutcome.resp 200 (some "sess-9"))
        (NotifyOutcome.exc "notification connection reset")).1.initialized = true ∧
    (ensure_initialized { } (InitOutcome.resp 200 (some "sess-9"))
        (NotifyOutcome.exc "notification connection reset")).1.session_id =
      some "sess-9" :=
  ⟨rfl, rfl, rfl⟩

/-- C9 (amended): once initialized, the handshake runs no initialize
request and leaves the state (hence the stored session id reused by
_get_mcp_headers) untouched, for the life of the process; if the
initialize request itself fails (raised post or non-200 status), the
state is left exactly as it was — a fresh client stays Uninitialized
with no session id — and the triggering call fails; a 200 response
stores the delivered session id and sets the flag, whatever the
notification outcome, and every later header set carries the stored
id; but when the follow-up initialized-notification post raises, the
triggering call fails although the state has already transitioned to
Ready with the session id stored. -/
theorem handshake_state_machine :
    (∀ (st : CequenceState) (iw : InitOutcome) (nw : NotifyOutcome),
      st.initialized = true → ensure_initialized st iw nw = (st, false, none)) ∧
    (∀ (st : CequenceState) (msg : String) (nw : NotifyOutcome),
      st.initialized = false →
      ensure_initialized st (InitOutcome.exc msg) nw = (st, true, some msg)) ∧
    (∀ (st : CequenceState) (status : Nat) (sid : Option String) (nw : NotifyOutcome),
      st.initialized = false → status ≠ 200 →
      ensure_initialized st (InitOutcome.resp status sid) nw =
        (st, true, some ("Gateway initialization failed: " ++ toString status))) ∧
    (∀ (st : CequenceState) (sid : String) (nw : NotifyOutcome),
      st.initialized = false →
      (ensure_initialized st (InitOutcome.resp 200 (some sid)) nw).1 =
        { session_id := some sid, initialized := true } ∧
      (sid ≠ "" →
        ("Mcp-Session-Id", sid) ∈
          _get_mcp_headers
            (ensure_initialized st (InitOutcome.resp 200 (some sid)) nw).1)) ∧
    (∀ (st : CequenceState) (sid msg : String),
      st.initialized = false → sid ≠ "" →
      ensure_initialized st (InitOutcome.resp 200 (some sid)) (NotifyOutcome.exc msg) =
        ({ session_id := some sid, initialized := true }, true, some msg)) := by
  refine ⟨?_, ?_, ?_, ?_, ?_⟩
  · intro st iw nw hinit
    unfold ensure_initialized
    rw [if_pos hinit]
  · intro st msg nw hinit
    simp [ensure_initialized, hinit]
  · intro st status sid nw hinit hstatus
    have hb : (status == 200) = false := beq_eq_false_iff_ne.mpr hstatus
    simp [ensure_initialized, hinit, hb]
  · intro st sid nw hinit
    have h1 : (ensure_initialized st (InitOutcome.resp 200 (some sid)) nw).1 =
        { session_id := some sid, initialized := true } := by
      simp [ensure_initialized, hinit]
    refine ⟨h1, ?_⟩
    intro hne
    rw [h1]
    unfold _get_mcp_headers
    simp only
    rw [if_neg hne]
    simp
  · intro st sid msg hinit hsid
    simp [ensure_initialized, _send_initialized_notification, hinit, hsid]

/-- Witness instantiating the amended C9 theorem at concrete states
and wire outcomes: the no-op on a Ready state, both initialize-failure
shapes, the successful transition with its header, and the
Ready-despite-raised-notification path. -/
theorem handshake_state_machine_witness :
    ensure_initialized { session_id := some "sess-1", initialized := true }
        (InitOutcome.exc "boom") (NotifyOutcome.resp 202) =
      ({ session_id := some "sess-1", initialized := true }, false, none) ∧
    ensure_initialized { } (InitOutcome.exc "connect timeout") (NotifyOutcome.resp 202) =
      ({ }, true, some "connect timeout") ∧
    ensure_initialized { } (InitOutcome.resp 502 none) (NotifyOutcome.resp 202) =
      ({ }, true, some ("Gateway initialization failed: " ++ toString 502)) ∧
    ((ensure_initialized { } (InitOutcome.resp 200 (some "sess-2"))
          (NotifyOutcome.resp 202)).1 =
        { session_id := some "sess-2", initialized := true } ∧
      ("Mcp-Session-Id", "sess-2") ∈
        _get_mcp_headers (ensure_initialized { } (InitOutcome.resp 200 (some "sess-2"))
          (NotifyOutcome.resp 202)).1) ∧
    ensure_initialized { } (InitOutcome.resp 200 (some "sess-3"))
        (NotifyOutcome.exc "reset") =
      ({ session_id := some "sess-3", initialized := true }, true, some "reset") :=
  ⟨handshake_state_machine.1 { session_id := some "sess-1", initialized := true }
      (InitOutcome.exc "boom") (NotifyOutcome.resp 202) rfl,
    handshake_state_machine.2.1 { } "connect timeout" (NotifyOutcome.resp 202) rfl,
    handshake_state_machine.2.2.1 { } 502 none (NotifyOutcome.resp 202) rfl (by decide),
    ⟨(handshake_state_machine.2.2.2.1 { } "sess-2" (NotifyOutcome.resp 202) rfl).1,
      (handshake_state_machine.2.2.2.1 { } "sess-2" (NotifyOutcome.resp 202) rfl).2
        (by decide)⟩,
    handshake_state_machine.2.2.2.2 { } "sess-3" "reset" rfl (by decide)⟩

/-- Sanity of the fnmatchcase model on representative patterns: a
trailing star, exact equality, mismatch, the bare star, character
classes with negation and ranges. -/
theorem fnmatchcase_model_sanity :
    fnmatchcase "deploy.production" "deploy.*" = true ∧
    fnmatchcase "deploy.production" "deploy.production" = true ∧
    fnmatchcase "deploy.production" "deploy.staging" = false ∧
    fnmatchcase "anything" "*" = true ∧
    fnmatchcase "a" "[ab]" = true ∧
    fnmatchcase "c" "[!ab]" = true ∧
    fnmatchcase "b" "[!ab]" = false ∧
    fnmatchcase "m" "[a-z]" = true := by
  refine ⟨by decide, by decide, by decide, by decide, by decide, by decide,
    by decide, by decide⟩

/-- C6 (code bug): for rollback, the proxied-transport-failure fallback
behaves as the claim states (the supporting mcp_rollback_fallback_direct
theorem, instantiated in the third conjunct); but for deploy it cannot,
because DirectRouter.__init__ binds the instance attribute
deploy_service over the method of the same name: the fallback call in
MCPToolService.deploy_service raises TypeError with no fallback deploy
executed, instead of returning a Direct-mode-shaped response — even
though the shadowed method itself, were it reachable, succeeds on this
very input (second conjunct). -/
theorem deploy_fallback_shadowed_method :
    MCPToolService.deploy_service cequenceSettings failTransport okServices
        prodDeployer "payment-service" "1.2.3" "production" =
      (Except.error (PyErr.exc "TypeError: 'DeployService' object is not callable"),
        [("payment-service", "1.2.3", "production")]) ∧
    (DirectRouter.deploy_service okServices prodDeployer
        "payment-service" "1.2.3" "production").1 =
      Except.ok (RouterOutput.tool
        { tool := "deploy_service", success := true,
          result := some ⟨"deployment-accepted"⟩ }) ∧
    MCPToolService.rollback_deployment cequenceSettings failTransport okServices
        stagingRollbacker "dep-42" "memory leak rollback" "staging" =
      ((DirectRouter.rollback_deployment okServices stagingRollbacker
          "dep-42" "memory leak rollback" "staging").1,
        [("dep-42", "memory leak rollback", "staging")]) :=
  ⟨rfl, rfl, rfl⟩
